import Mathlib

/-!
Verification of the DeepResearchAgent "as of time T" Wikipedia pipeline.

This file gives a shallow embedding of the three source files

  * my_tools/oldid_enforcer.py   (FastAPI endpoint oldid_before, isoify_to_eod)
  * src/tools/wikipedia_read_asof.py (WikipediaAsOfTool.forward and helpers)

and proves the frozen claims about them.  Pure Python functions become Lean
functions over String / List Char; the two network capabilities (the
OldidEnforcer lookup and the Wikipedia content fetch) are modelled as
explicit oracle parameters returning Except values, exceptions become
Except.error, and Python falsiness/Option access is modelled explicitly.
-/

set_option autoImplicit false

namespace DeepResearchAgent

/-! ## Timestamp normalizer: my_tools/oldid_enforcer.py, isoify_to_eod -/

/-- Model of the regex fullmatch on a character list for the pattern of
four digits, dash, two digits, dash, two digits.  The Python pattern uses
re.fullmatch so the whole string must match.  Python's unicode digit class
is modelled by ASCII Char.isDigit; date strings only use ASCII digits. -/
def isBareDateChars : List Char → Bool
  | [y1, y2, y3, y4, h1, m1, m2, h2, d1, d2] =>
    y1.isDigit && y2.isDigit && y3.isDigit && y4.isDigit && h1 = '-' &&
    m1.isDigit && m2.isDigit && h2 = '-' && d1.isDigit && d2.isDigit
  | _ => false

/-- Model of Python s.endswith of the single character Z. -/
def endsInZ (s : String) : Bool :=
  decide (s.data.getLast? = some 'Z')

/-- Model of the Python substring test of the single character plus in s. -/
def containsPlus (s : String) : Bool :=
  decide ('+' ∈ s.data)

/-- Embedding of isoify_to_eod from my_tools/oldid_enforcer.py line 16:
if the whole string is a bare date, append the end-of-day suffix; else if
it ends in Z or contains a plus sign, keep it; else append Z. -/
def isoify_to_eod (s : String) : String :=
  if isBareDateChars s.data then s ++ "T23:59:59Z"
  else if endsInZ s || containsPlus s then s
  else s ++ "Z"

/-- Modelled from the spec: a string "carries an explicit UTC offset" when
it ends in a sign followed by a two-digit hour, a colon and two-digit
minutes, covering positive offsets such as +02:00 and negative offsets
such as -05:00 alike.  Used only to state claims, never as part of the
embedded code. -/
def carriesUtcOffset (s : String) : Bool :=
  match s.data.reverse with
  | m2 :: m1 :: ':' :: h2 :: h1 :: sign :: _ =>
    m2.isDigit && m1.isDigit && h2.isDigit && h1.isDigit &&
    (sign = '+' || sign = '-')
  | _ => false

theorem isBareDateChars_getLast_isDigit {l : List Char}
    (h : isBareDateChars l = true) :
    ∃ d, l.getLast? = some d ∧ d.isDigit = true := by
  unfold isBareDateChars at h
  split at h
  · next y1 y2 y3 y4 h1 m1 m2 h2 d1 d2 =>
    simp only [Bool.and_eq_true, decide_eq_true_eq] at h
    exact ⟨d2, rfl, h.2⟩
  · exact absurd h (by simp)

theorem isBareDateChars_ne_lastZ {l : List Char}
    (h : isBareDateChars l = true) : l.getLast? ≠ some 'Z' := by
  obtain ⟨d, hd, hdig⟩ := isBareDateChars_getLast_isDigit h
  intro hz
  rw [hd] at hz
  obtain rfl : d = 'Z' := by injection hz
  exact absurd hdig (by decide)

theorem data_append (s t : String) : (s ++ t).data = s.data ++ t.data := rfl

theorem endsInZ_append_Z (s t : String) (ht : t.data ≠ [])
    (h : t.data.getLast? = some 'Z') : endsInZ (s ++ t) = true := by
  unfold endsInZ
  rw [data_append, List.getLast?_append_of_ne_nil _ ht, h]
  decide

/-- A string ending in Z is passed through unchanged by the normalizer:
it cannot be a bare date (whose last character is a digit) and it trips
the pass-through test. -/
theorem isoify_of_endsZ (t : String) (hz : endsInZ t = true) :
    isoify_to_eod t = t := by
  have hzl : t.data.getLast? = some 'Z' := by
    unfold endsInZ at hz
    exact of_decide_eq_true hz
  have hnb : isBareDateChars t.data = false := by
    cases hb : isBareDateChars t.data
    · rfl
    · exact absurd hzl (isBareDateChars_ne_lastZ hb)
  unfold isoify_to_eod
  simp [hnb, hz]

/-- The normalizer is idempotent on every input string: every output
either equals the input (pass-through branch) or ends in Z, and a string
ending in Z is passed through unchanged. -/
theorem isoify_to_eod_idem (s : String) :
    isoify_to_eod (isoify_to_eod s) = isoify_to_eod s := by
  by_cases hb : isBareDateChars s.data = true
  · have h1 : isoify_to_eod s = s ++ "T23:59:59Z" := by
      unfold isoify_to_eod
      rw [if_pos hb]
    rw [h1, isoify_of_endsZ _ (endsInZ_append_Z s "T23:59:59Z" (by decide) (by decide))]
  · have hb' : isBareDateChars s.data = false := by
      cases h : isBareDateChars s.data
      · rfl
      · exact absurd h hb
    by_cases hp : (endsInZ s || containsPlus s) = true
    · have h1 : isoify_to_eod s = s := by
        unfold isoify_to_eod
        simp [hb', hp]
      rw [h1]
      exact h1
    · have hp' : (endsInZ s || containsPlus s) = false := by
        cases h : (endsInZ s || containsPlus s)
        · rfl
        · exact absurd h hp
      have h1 : isoify_to_eod s = s ++ "Z" := by
        unfold isoify_to_eod
        simp [hb', hp']
      rw [h1, isoify_of_endsZ _ (endsInZ_append_Z s "Z" (by decide) (by decide))]

/-- Claim C2: for every input string matching a bare calendar date YYYY-MM-DD
(4-digit year, 2-digit month, 2-digit day), the timestamp normalizer
returns exactly that string with T23:59:59Z appended. -/
theorem c2_bare_date_eod (s : String) (h : isBareDateChars s.data = true) :
    isoify_to_eod s = s ++ "T23:59:59Z" := by
  unfold isoify_to_eod
  rw [if_pos h]

theorem c2_bare_date_eod_witness :
    isBareDateChars "2024-04-15".data = true ∧
    isoify_to_eod "2024-04-15" = "2024-04-15T23:59:59Z" :=
  ⟨by decide, by rw [c2_bare_date_eod "2024-04-15" (by decide)]; decide⟩

/-- Claim C3 counterexample: the string 2020-01-01T10:00:00-05:00 is not a bare
calendar date and carries an explicit negative UTC offset, yet the
normalizer does not pass it through unchanged: because the code only tests
for a trailing Z or a plus character, it appends a spurious Z. -/
theorem c3_counterexample :
    isBareDateChars "2020-01-01T10:00:00-05:00".data = false ∧
    carriesUtcOffset "2020-01-01T10:00:00-05:00" = true ∧
    isoify_to_eod "2020-01-01T10:00:00-05:00" =
      "2020-01-01T10:00:00-05:00Z" ∧
    isoify_to_eod "2020-01-01T10:00:00-05:00" ≠
      "2020-01-01T10:00:00-05:00" := by
  refine ⟨by decide, by decide, by decide, by decide⟩

/-- Claim C3 amended: for every input string that is not a bare calendar date
and that either ends in Z or contains a plus character (which covers
positive offsets such as +02:00 but not negative offsets such as -05:00,
which instead get a Z appended), the normalizer passes the string through
unchanged. -/
theorem c3_amended (s : String) (hb : isBareDateChars s.data = false)
    (h : endsInZ s = true ∨ containsPlus s = true) :
    isoify_to_eod s = s := by
  unfold isoify_to_eod
  rw [if_neg (by rw [hb]; exact Bool.false_ne_true)]
  rcases h with h | h <;> rw [h] <;> simp

theorem c3_amended_witness :
    isBareDateChars "2024-04-15T00:00:00+02:00".data = false ∧
    containsPlus "2024-04-15T00:00:00+02:00" = true ∧
    isoify_to_eod "2024-04-15T00:00:00+02:00" = "2024-04-15T00:00:00+02:00" :=
  ⟨by decide, by decide,
    c3_amended "2024-04-15T00:00:00+02:00" (by decide) (Or.inr (by decide))⟩

/-- Claim C9: for every input string that already ends in Z or carries an
explicit UTC offset, the timestamp normalizer is idempotent: applying it
twice yields the same string as applying it once.  (Idempotence in fact
holds for every input, see isoify_to_eod_idem.) -/
theorem c9_idempotent (s : String)
    (h : endsInZ s = true ∨ carriesUtcOffset s = true) :
    isoify_to_eod (isoify_to_eod s) = isoify_to_eod s := by
  cases h <;> exact isoify_to_eod_idem s

theorem c9_idempotent_witness :
    endsInZ "2020-01-01T00:00:00Z" = true ∧
    isoify_to_eod (isoify_to_eod "2020-01-01T00:00:00Z") =
      isoify_to_eod "2020-01-01T00:00:00Z" :=
  ⟨by decide, c9_idempotent "2020-01-01T00:00:00Z" (Or.inl (by decide))⟩

/-! ## Identifier normalizer: src/tools/wikipedia_read_asof.py

The helper _extract_title_or_oldid uses re.match on the scheme, Python's
urllib.parse.urlparse, parse_qs and unquote, str.replace, str.strip and
int().  Each of these is embedded below over List Char. -/

/-- Split a character list at the first occurrence of a character:
the part before it, and the part after it when it occurs. -/
def splitAtFirst (c : Char) : List Char → List Char × Option (List Char)
  | [] => ([], none)
  | x :: xs =>
    if x = c then ([], some xs)
    else
      let p := splitAtFirst c xs
      (x :: p.1, p.2)

/-- Model of Python str.split on a one-character separator: an empty
string yields one empty piece, and every separator starts a new piece. -/
def splitAll (c : Char) : List Char → List (List Char)
  | [] => [[]]
  | x :: xs =>
    if x = c then [] :: splitAll c xs
    else
      match splitAll c xs with
      | [] => [[x]]
      | a :: rest => (x :: a) :: rest

/-- Split a character list around the first occurrence of a non-empty
pattern, modelling Python substring search and str.split(pat, 1). -/
def splitAtSub (pat : List Char) : List Char → Option (List Char × List Char)
  | [] => if pat = [] then some ([], []) else none
  | c :: rest =>
    if pat.isPrefixOf (c :: rest) then some ([], (c :: rest).drop pat.length)
    else
      match splitAtSub pat rest with
      | some (a, b) => some (c :: a, b)
      | none => none

/-- Model of the anchored regex match on https?:// from
_extract_title_or_oldid: strip a lowercase http or https scheme plus
slashes, returning the remainder when the string is such a URL. -/
def dropScheme : List Char → Option (List Char)
  | 'h' :: 't' :: 't' :: 'p' :: 's' :: ':' :: '/' :: '/' :: rest => some rest
  | 'h' :: 't' :: 't' :: 'p' :: ':' :: '/' :: '/' :: rest => some rest
  | _ => none

def isHttpUrl (s : String) : Bool :=
  (dropScheme s.data).isSome

/-- Hexadecimal digit value, both cases, as used by percent-decoding. -/
def hexVal (c : Char) : Option Nat :=
  if '0' ≤ c ∧ c ≤ '9' then some (c.toNat - 48)
  else if 'a' ≤ c ∧ c ≤ 'f' then some (c.toNat - 97 + 10)
  else if 'A' ≤ c ∧ c ≤ 'F' then some (c.toNat - 65 + 10)
  else none

/-- The UTF-8 replacement character produced by Python's errors=replace
byte decoding. -/
def replChar : Char := '�'

/-- Pending state of the UTF-8 decoder: how many continuation bytes are
still needed, the accumulated code-point value, and the allowed range of
the next byte (restricted after E0, ED, F0 and F4 leads to rule out
overlong encodings, surrogates and values above 0x10FFFF). -/
structure U8St where
  need : Nat
  acc : Nat
  lo : Nat
  hi : Nat
deriving DecidableEq

/-- Dispatch a byte outside any multi-byte sequence: an ASCII byte is a
character, an invalid lead is a replacement character, a valid lead opens
a pending state. -/
def u8Lead (b : Nat) : List Char × Option U8St :=
  if b < 0x80 then ([Char.ofNat b], none)
  else if b < 0xC2 then ([replChar], none)
  else if b ≤ 0xDF then ([], some ⟨1, b - 0xC0, 0x80, 0xBF⟩)
  else if b ≤ 0xEF then
    ([], some ⟨2, b - 0xE0, if b = 0xE0 then 0xA0 else 0x80,
              if b = 0xED then 0x9F else 0xBF⟩)
  else if b ≤ 0xF4 then
    ([], some ⟨3, b - 0xF0, if b = 0xF0 then 0x90 else 0x80,
              if b = 0xF4 then 0x8F else 0xBF⟩)
  else ([replChar], none)

/-- UTF-8 decoding with replacement, following the maximal-subpart policy
of Python's bytes.decode(utf-8, replace): an invalid or truncated
sequence yields one replacement character and decoding resumes at the
first unconsumed byte, which is re-dispatched as a fresh lead. -/
def u8Run : Option U8St → List Nat → List Char
  | none, [] => []
  | some _, [] => [replChar]
  | none, b :: rest =>
    let p := u8Lead b
    p.1 ++ u8Run p.2 rest
  | some st, b :: rest =>
    if st.lo ≤ b ∧ b ≤ st.hi then
      if st.need = 1 then Char.ofNat (st.acc * 64 + (b - 0x80)) :: u8Run none rest
      else u8Run (some ⟨st.need - 1, st.acc * 64 + (b - 0x80), 0x80, 0xBF⟩) rest
    else
      let p := u8Lead b
      replChar :: (p.1 ++ u8Run p.2 rest)

def utf8Dec (l : List Nat) : List Char :=
  u8Run none l

/-- Tokens produced while scanning a string for percent-escapes: a byte
(from an escape or a literal ASCII character) or a literal non-ASCII
character, which Python's unquote leaves outside the byte decoding. -/
inductive UQTok where
  | byte (n : Nat)
  | raw (c : Char)
deriving DecidableEq

/-- Scan for percent-escapes as Python urllib.parse.unquote does: a
percent sign followed by two hex digits becomes a byte, any other ASCII
character contributes its own code as a byte of the surrounding run, and
non-ASCII characters pass through outside the byte runs. -/
def uqTokens : List Char → List UQTok
  | [] => []
  | '%' :: a :: b :: rest =>
    match hexVal a, hexVal b with
    | some x, some y => UQTok.byte (16 * x + y) :: uqTokens rest
    | _, _ => UQTok.byte 37 :: uqTokens (a :: b :: rest)
  | c :: rest =>
    (if c.toNat < 128 then UQTok.byte c.toNat else UQTok.raw c) :: uqTokens rest

/-- Flush maximal byte runs through the UTF-8 decoder; the first argument
accumulates the current run in reverse. -/
def uqFlush : List UQTok → List Nat → List Char
  | [], acc => utf8Dec acc.reverse
  | UQTok.raw c :: rest, acc => utf8Dec acc.reverse ++ c :: uqFlush rest []
  | UQTok.byte n :: rest, acc => uqFlush rest (n :: acc)

/-- Embedding of urllib.parse.unquote with UTF-8 replacement decoding. -/
def unquoteChars (l : List Char) : List Char :=
  uqFlush (uqTokens l) []

/-- Model of Python str.replace of underscores by spaces (a
single-character pattern replaces characterwise). -/
def underscoresToSpaces (l : List Char) : List Char :=
  l.map fun c => if c = '_' then ' ' else c

/-- Model of str.replace of plus signs by spaces, applied by parse_qsl
to names and values before unquoting. -/
def plusToSpace (l : List Char) : List Char :=
  l.map fun c => if c = '+' then ' ' else c

/-- Embedding of urllib.parse.parse_qsl with the default settings used by
parse_qs: split on ampersands, skip chunks without an equals sign and
pairs with an empty value (keep_blank_values is false), and unquote names
and values after replacing plus signs by spaces. -/
def parse_qsl (q : List Char) : List (List Char × List Char) :=
  (splitAll '&' q).filterMap fun nv =>
    match splitAtFirst '=' nv with
    | (_, none) => none
    | (name, some value) =>
      if value = [] then none
      else some (unquoteChars (plusToSpace name), unquoteChars (plusToSpace value))

/-- Values stored under a key by parse_qs, in order of appearance; a key
is present in the parse_qs dict exactly when this list is non-empty. -/
def qsValues (key : List Char) (q : List Char) : List (List Char) :=
  (parse_qsl q).filterMap fun p => if p.1 = key then some p.2 else none

/-- Path and query components of urllib.parse.urlparse; the other
components are unused by the source.  An absent query is the empty
string, as in Python. -/
structure UrlParts where
  path : List Char
  query : List Char
deriving DecidableEq

/-- Model of the parameter split urlparse applies to the path: the part
of the last path segment from its first semicolon on is removed. -/
def dropParams (l : List Char) : List Char :=
  if l.contains '/' then
    let tl := (l.reverse.takeWhile fun c => c != '/').reverse
    l.take (l.length - tl.length) ++ (splitAtFirst ';' tl).1
  else (splitAtFirst ';' l).1

/-- Embedding of urllib.parse.urlparse restricted to http and https URLs
(the only context in which the source calls it, behind the scheme regex):
after the scheme, the network location runs to the first slash, question
mark or hash; the fragment is split at the first hash; the query at the
first question mark of what precedes it; and path parameters are split
off the last path segment. -/
def pyUrlparse (s : String) : UrlParts :=
  match dropScheme s.data with
  | none => { path := [], query := [] }
  | some rest =>
    let afterNet := rest.dropWhile fun c => !(c == '/' || c == '?' || c == '#')
    let beforeFrag := (splitAtFirst '#' afterNet).1
    let p := splitAtFirst '?' beforeFrag
    { path := dropParams p.1, query := p.2.getD [] }

/-- Python whitespace stripped by str.strip and int(), modelled over the
ASCII range. -/
def isPyWs (c : Char) : Bool :=
  c == ' ' || c == '\t' || c == '\n' || c == '\u000D' ||
  c == '\u000B' || c == '\u000C'

/-- Model of Python str.strip with no arguments. -/
def pyStrip (s : String) : String :=
  String.mk (((s.data.dropWhile isPyWs).reverse.dropWhile isPyWs).reverse)

/-- Digit run of an integer literal: decimal digits with single
underscores allowed only between digits, as Python's int() accepts. -/
def digitsAcc : Nat → List Char → Option Nat
  | acc, [] => some acc
  | acc, '_' :: rest =>
    match rest with
    | c :: rest2 =>
      if c.isDigit then digitsAcc (10 * acc + (c.toNat - 48)) rest2 else none
    | [] => none
  | acc, c :: rest =>
    if c.isDigit then digitsAcc (10 * acc + (c.toNat - 48)) rest else none

def parseDigits : List Char → Option Nat
  | [] => none
  | c :: rest => if c.isDigit then digitsAcc (c.toNat - 48) rest else none

/-- Model of Python int() applied to a string: strip whitespace, allow
one optional sign, then a digit run (ASCII digits).  Returns none where
int() raises ValueError. -/
def pyIntParse (l : List Char) : Option Int :=
  let t := ((l.dropWhile isPyWs).reverse.dropWhile isPyWs).reverse
  match t with
  | '+' :: rest => (parseDigits rest).map fun n => (n : Int)
  | '-' :: rest => (parseDigits rest).map fun n => -(n : Int)
  | rest => (parseDigits rest).map fun n => (n : Int)

/-- The oldid component extracted by _extract_title_or_oldid: the first
value of the oldid query parameter, parsed as an integer, when both
steps succeed. -/
def urlOldid (q : String) : Option Int :=
  ((qsValues "oldid".data (pyUrlparse q).query).head?).bind pyIntParse

def wikiSeg : List Char := "/wiki/".data

/-- The title fallback of _extract_title_or_oldid, lines 40 to 48 of
src/tools/wikipedia_read_asof.py: the path segment after /wiki/ with
underscores replaced then unquoted, else the title query parameter
unquoted then with underscores replaced, else nothing. -/
def urlTitleFallback (q : String) : Option String × Option Int :=
  let u := pyUrlparse q
  match splitAtSub wikiSeg u.path with
  | some (_, raw) => (some (String.mk (unquoteChars (underscoresToSpaces raw))), none)
  | none =>
    match (qsValues "title".data u.query).head? with
    | some v => (some (String.mk (underscoresToSpaces (unquoteChars v))), none)
    | none => (none, none)

/-- Embedding of _extract_title_or_oldid: for an http or https URL, a
parseable oldid query parameter wins; otherwise the title fallback runs;
a non-URL input is a title stripped of surrounding whitespace. -/
def extract_title_or_oldid (q : String) : Option String × Option Int :=
  if isHttpUrl q then
    match urlOldid q with
    | some n => (none, some n)
    | none => urlTitleFallback q
  else (some (pyStrip q), none)

example :
    extract_title_or_oldid "https://en.wikipedia.org/w/index.php?oldid=123456" =
      (none, some 123456) := by decide

example :
    extract_title_or_oldid "https://en.wikipedia.org/wiki/Climate_change" =
      (some "Climate change", none) := by decide

example :
    extract_title_or_oldid "https://en.wikipedia.org/wiki/A%5FB" =
      (some "A_B", none) := by decide

example :
    extract_title_or_oldid "https://en.wikipedia.org/wiki/Foo?oldid=abc" =
      (some "Foo", none) := by decide

example :
    extract_title_or_oldid " Climate change " = (some "Climate change", none) := by
  decide

example :
    extract_title_or_oldid
      "https://en.wikipedia.org/w/index.php?title=Climate_change&oldid=7" =
      (none, some 7) := by decide

example :
    extract_title_or_oldid "https://en.wikipedia.org/w/index.php?title=Climate_change" =
      (some "Climate change", none) := by decide

example :
    extract_title_or_oldid "https://en.wikipedia.org/wiki/a;b;c" = (some "a", none) := by
  decide

example :
    extract_title_or_oldid "https://en.wikipedia.org/w/index.php?oldid=" =
      (none, none) := by decide

example :
    extract_title_or_oldid "https://en.wikipedia.org/w/index.php?oldid=+42" =
      (none, some 42) := by decide

example :
    extract_title_or_oldid "https://en.wikipedia.org/w/index.php?oldid=4_2" =
      (none, some 42) := by decide

example :
    extract_title_or_oldid "https://en.wikipedia.org/w/index.php?old%69d=99" =
      (none, some 99) := by decide

example :
    extract_title_or_oldid "https://en.wikipedia.org/w/index.php?oldid=1&oldid=x" =
      (none, some 1) := by decide

example :
    extract_title_or_oldid "https://en.wikipedia.org/w/index.php?oldid=x&oldid=2" =
      (none, none) := by decide

example :
    extract_title_or_oldid "https://host/wiki/%C3%A9t%C3%A9" = (some "été", none) := by
  decide

example :
    extract_title_or_oldid "https://host/wiki/bad%C3escape" =
      (some (String.mk ['b', 'a', 'd', replChar, 'e', 's', 'c', 'a', 'p', 'e']), none) := by
  decide

example :
    extract_title_or_oldid "https://host/wiki/pct%25_x" = (some "pct% x", none) := by
  decide

example : extract_title_or_oldid "https://host/a#frag/wiki/T" = (none, none) := by decide

example : extract_title_or_oldid "https://host/wiki/T#frag" = (some "T", none) := by decide

example :
    extract_title_or_oldid "https://host/wiki/T?x=1#frag" = (some "T", none) := by decide

example :
    extract_title_or_oldid "http://host/path;p/wiki/x;y?title=T" = (some "x", none) := by
  decide

example :
    extract_title_or_oldid "https://host/?title=A+B%5FC" = (some "A B C", none) := by
  decide

/-! ## The tool pipeline: WikipediaAsOfTool.forward

The two outbound network calls are oracle parameters: resolve models
_resolve_oldid_with_enforcer (returning the enforcer's JSON as a record,
or an exception message), fetch models _fetch_html_for_oldid.  Python
exceptions are Except.error carrying the message; forward catches them
all and turns them into the uniform ToolResult shape.  The JSON
serialization of the success payload (json.dumps) is external plumbing
per the spec, so the output field holds the structured payload. -/

/-- Python truthiness of an optional string: None and the empty string
are falsy. -/
def pyTruthy : Option String → Bool
  | none => false
  | some s => !(s == "")

/-- Python x or y on optional strings: the left value unless falsy. -/
def pyOrStr (a b : Option String) : Option String :=
  if pyTruthy a then a else b

/-- The JSON record returned by the OldidEnforcer as consumed by forward
through .get calls and the rev_id subscript: every field may be absent. -/
structure OldidMeta where
  title : Option String
  rev_id : Option Int
  rev_time : Option String
  oldid_url : Option String
deriving DecidableEq

/-- The dict returned by _fetch_html_for_oldid, whose html and sections
keys are always present (defaulted to empty) and whose title may be
absent.  Section entries are opaque payloads. -/
structure HtmlPkg where
  html : String
  sections : List String
  title : Option String
deriving DecidableEq

/-- The resolved part of the success payload assembled by forward. -/
structure ResolvedInfo where
  title : Option String
  rev_id : Int
  rev_time : Option String
  oldid_url : Option String
deriving DecidableEq

/-- The success payload assembled by forward: the echoed input, the
resolved revision and the content. -/
structure AsOfResult where
  input_query_or_url : String
  input_t_query : Option String
  resolved : ResolvedInfo
  content_html : String
  content_sections : List String
deriving DecidableEq

/-- The uniform tool result shape. -/
structure ToolResult where
  output : Option AsOfResult
  error : Option String
deriving DecidableEq

/-- The permalink template used when the revision is pinned directly. -/
def oldidUrlFor (n : Int) : String :=
  "https://en.wikipedia.org/w/index.php?oldid=" ++ toString n

/-- Success payload of the pinned path of forward: no enforcer metadata,
so the revision time is None and the permalink is the fixed template. -/
def mkPinned (q : String) (t : Option String) (title : Option String)
    (oldid : Int) (pkg : HtmlPkg) : AsOfResult :=
  { input_query_or_url := q
    input_t_query := t
    resolved :=
      { title := pyOrStr pkg.title title
        rev_id := oldid
        rev_time := none
        oldid_url := some (oldidUrlFor oldid) }
    content_html := pkg.html
    content_sections := pkg.sections }

/-- Success payload of the resolved path of forward: the enforcer
metadata supplies title fallback, revision time and permalink. -/
def mkResolved (q : String) (t : Option String) (meta : OldidMeta)
    (oldid : Int) (pkg : HtmlPkg) : AsOfResult :=
  { input_query_or_url := q
    input_t_query := t
    resolved :=
      { title := pyOrStr pkg.title meta.title
        rev_id := oldid
        rev_time := meta.rev_time
        oldid_url := meta.oldid_url }
    content_html := pkg.html
    content_sections := pkg.sections }

/-- The body of WikipediaAsOfTool.forward inside its try block, lines 127
to 156 of src/tools/wikipedia_read_asof.py.  An Except.error is a Python
exception escaping the block; an Except.ok is one of the explicit
returns.  The subscript of the rev_id key raises KeyError when absent,
and int() of its value is modelled by the enforcer contract delivering an
integer. -/
def forwardExc (resolve : String → String → Except String OldidMeta)
    (fetch : Int → Except String HtmlPkg)
    (q : String) (t : Option String) : Except String ToolResult :=
  match extract_title_or_oldid q with
  | (_, some oldid) =>
    match fetch oldid with
    | Except.error e => Except.error e
    | Except.ok pkg =>
      Except.ok { output := some (mkPinned q t none oldid pkg), error := none }
  | (title, none) =>
    if pyTruthy title = false then
      Except.ok { output := none,
                  error := some "Could not parse a title or oldid from query_or_url." }
    else if pyTruthy t = false then
      Except.ok { output := none,
                  error := some "t_query is required when no oldid is provided." }
    else
      match resolve (title.getD "") (t.getD "") with
      | Except.error e => Except.error e
      | Except.ok meta =>
        match meta.rev_id with
        | none => Except.error "KeyError: rev_id"
        | some oldid =>
          match fetch oldid with
          | Except.error e => Except.error e
          | Except.ok pkg =>
            Except.ok { output := some (mkResolved q t meta oldid pkg), error := none }

/-- Embedding of WikipediaAsOfTool.forward: the try block above with the
catch-all except clause converting any exception into the uniform error
shape.  The function is total: no exception escapes the entry point. -/
def forward (resolve : String → String → Except String OldidMeta)
    (fetch : Int → Except String HtmlPkg)
    (q : String) (t : Option String) : ToolResult :=
  match forwardExc resolve fetch q t with
  | Except.ok r => r
  | Except.error e =>
    { output := none, error := some ("wikipedia_asof_tool error: " ++ e) }

/-! ## The enforcer endpoint: my_tools/oldid_enforcer.py, oldid_before -/

/-- A revision entry of the upstream MediaWiki response, with the ids and
timestamp fields requested via rvprop. -/
structure WikiRev where
  revid : Int
  timestamp : String
deriving DecidableEq

/-- A page entry of the upstream response: the title key may be absent
(read through .get) and the revisions key may be absent, present and
empty, or non-empty. -/
structure WikiPage where
  title : Option String
  revisions : Option (List WikiRev)
deriving DecidableEq

structure WikiQueryPart where
  pages : Option (List WikiPage)
deriving DecidableEq

/-- The parsed JSON body of the upstream response, accessed through
data.get(query, empty).get(pages, empty list). -/
structure WikiBody where
  query : Option WikiQueryPart
deriving DecidableEq

def wikiPages (b : WikiBody) : List WikiPage :=
  (b.query.map fun qp => qp.pages.getD []).getD []

/-- The request parameters oldid_before sends upstream that depend on its
inputs, including the normalized rvstart bound. -/
structure WikiReq where
  titles : String
  rvstart : String
  rvend : String
  rvlimit : Nat
deriving DecidableEq

def mkWikiReq (title t_query : String) : WikiReq :=
  { titles := title
    rvstart := isoify_to_eod t_query
    rvend := "2001-01-01T00:00:00Z"
    rvlimit := 1 }

/-- The upstream call either yields an HTTP response with a status and a
parsed JSON body, or fails at the transport level (timeout, connection
error), which requests raises as a distinct exception. -/
inductive WikiResp where
  | response (status : Nat) (body : WikiBody)
  | transportError (msg : String)
deriving DecidableEq

/-- The distinct failures of oldid_before: a FastAPI HTTPException with a
status and detail, the requests HTTPError from raise_for_status, a
transport exception, and the IndexError from subscripting an empty
revisions list. -/
inductive EnforcerError where
  | httpException (status : Nat) (detail : String)
  | httpStatusError (status : Nat)
  | transportError (msg : String)
  | indexError
deriving DecidableEq

/-- The JSON payload of a successful oldid_before response. -/
structure OldidJson where
  title : String
  rev_id : Int
  rev_time : String
  oldid_url : String
deriving DecidableEq

def noRevisionDetail (title t_query : String) : String :=
  "No revision for '" ++ title ++ "' ≤ " ++ t_query

/-- Embedding of the oldid_before endpoint, lines 20 to 46 of
my_tools/oldid_enforcer.py: send the revision query with the normalized
upper bound; turn an upstream 403 into HTTPException 403; let
raise_for_status reject any other 4xx or 5xx; answer 404 when the body
has no pages or the first page has no revisions key; subscript the first
revision otherwise (an IndexError when the list is present but empty);
and build the permalink from the fixed template. -/
def oldid_before (upstream : WikiReq → WikiResp) (title t_query : String) :
    Except EnforcerError OldidJson :=
  match upstream (mkWikiReq title t_query) with
  | WikiResp.transportError msg => Except.error (EnforcerError.transportError msg)
  | WikiResp.response status body =>
    if status = 403 then
      Except.error
        (EnforcerError.httpException 403 "Forbidden. Use a descriptive User-Agent.")
    else if 400 ≤ status ∧ status < 600 then
      Except.error (EnforcerError.httpStatusError status)
    else
      match wikiPages body with
      | [] =>
        Except.error (EnforcerError.httpException 404 (noRevisionDetail title t_query))
      | page :: _ =>
        match page.revisions with
        | none =>
          Except.error (EnforcerError.httpException 404 (noRevisionDetail title t_query))
        | some [] => Except.error EnforcerError.indexError
        | some (rev :: _) =>
          Except.ok
            { title := page.title.getD title
              rev_id := rev.revid
              rev_time := rev.timestamp
              oldid_url := "https://en.wikipedia.org/w/index.php?oldid=" ++
                toString rev.revid }

/-- Does oldid_before fail with an HTTPException of the given status? -/
def failsWithStatus (code : Nat) (r : Except EnforcerError OldidJson) : Bool :=
  match r with
  | Except.error (EnforcerError.httpException s _) => s == code
  | _ => false

/-! ## Claims about the identifier normalizer and the pipeline -/

theorem extract_of_oldid (q : String) (n : Int) (h1 : isHttpUrl q = true)
    (h2 : urlOldid q = some n) : extract_title_or_oldid q = (none, some n) := by
  unfold extract_title_or_oldid
  simp [h1, h2]

theorem urlTitleFallback_snd (q : String) : (urlTitleFallback q).2 = none := by
  unfold urlTitleFallback
  rcases hs : splitAtSub wikiSeg (pyUrlparse q).path with _ | ⟨a, b⟩
  · rcases ht : (qsValues "title".data (pyUrlparse q).query).head? <;> simp [hs, ht]
  · simp [hs]

/-- When the extraction pins a revision id, forward ignores the resolver
and is determined by the fetch result at that id. -/
theorem forward_pinned (r : String → String → Except String OldidMeta)
    (f : Int → Except String HtmlPkg) (q : String) (t : Option String) (n : Int)
    (hE : extract_title_or_oldid q = (none, some n)) :
    forward r f q t =
      match f n with
      | Except.error e =>
        { output := none, error := some ("wikipedia_asof_tool error: " ++ e) }
      | Except.ok pkg => { output := some (mkPinned q t none n pkg), error := none } := by
  unfold forward forwardExc
  rw [hE]
  rcases hf : f n with e | pkg <;> simp [hf]

/-- Claim C1: for every input URL whose query string contains an oldid
parameter parseable as an integer, the pipeline returns a pinned
reference to that revision: the result does not depend on the resolver
oracle (so neither the timestamp normalizer nor the revision resolver,
which live behind it, is invoked), it depends on the fetch oracle only
through its value at that revision id, and on a successful fetch the
output payload carries that rev_id with rev_time null. -/
theorem c1_pinned_url (q : String) (n : Int)
    (r₁ r₂ : String → String → Except String OldidMeta)
    (f f₁ f₂ : Int → Except String HtmlPkg)
    (t : Option String) (pkg : HtmlPkg)
    (h1 : isHttpUrl q = true) (h2 : urlOldid q = some n)
    (hf : f n = Except.ok pkg) (hff : f₁ n = f₂ n) :
    forward r₁ f q t = forward r₂ f q t ∧
    forward r₁ f₁ q t = forward r₁ f₂ q t ∧
    forward r₁ f q t = { output := some (mkPinned q t none n pkg), error := none } ∧
    (mkPinned q t none n pkg).resolved.rev_time = none ∧
    (mkPinned q t none n pkg).resolved.rev_id = n := by
  have hE := extract_of_oldid q n h1 h2
  refine ⟨?_, ?_, ?_, rfl, rfl⟩
  · rw [forward_pinned r₁ f q t n hE, forward_pinned r₂ f q t n hE]
  · rw [forward_pinned r₁ f₁ q t n hE, forward_pinned r₁ f₂ q t n hE, hff]
  · rw [forward_pinned r₁ f q t n hE, hf]

theorem c1_pinned_url_witness :
    isHttpUrl "https://en.wikipedia.org/w/index.php?oldid=123456" = true ∧
    urlOldid "https://en.wikipedia.org/w/index.php?oldid=123456" = some 123456 ∧
    (forward (fun _ _ => Except.error "resolver down")
        (fun _ => Except.ok ⟨"<p>body</p>", [], some "T"⟩)
        "https://en.wikipedia.org/w/index.php?oldid=123456" none =
      forward (fun _ _ => Except.ok ⟨some "U", some 7, some "2020", some "u"⟩)
        (fun _ => Except.ok ⟨"<p>body</p>", [], some "T"⟩)
        "https://en.wikipedia.org/w/index.php?oldid=123456" none ∧
      forward (fun _ _ => Except.error "resolver down")
          (fun _ => Except.ok ⟨"<p>body</p>", [], some "T"⟩)
          "https://en.wikipedia.org/w/index.php?oldid=123456" none =
        forward (fun _ _ => Except.error "resolver down")
          (fun k => if k = 123456 then Except.ok ⟨"<p>body</p>", [], some "T"⟩
                    else Except.error "other")
          "https://en.wikipedia.org/w/index.php?oldid=123456" none ∧
      forward (fun _ _ => Except.error "resolver down")
          (fun _ => Except.ok ⟨"<p>body</p>", [], some "T"⟩)
          "https://en.wikipedia.org/w/index.php?oldid=123456" none =
        { output := some (mkPinned "https://en.wikipedia.org/w/index.php?oldid=123456"
            none none 123456 ⟨"<p>body</p>", [], some "T"⟩), error := none } ∧
      (mkPinned "https://en.wikipedia.org/w/index.php?oldid=123456"
          none none 123456 ⟨"<p>body</p>", [], some "T"⟩).resolved.rev_time = none ∧
      (mkPinned "https://en.wikipedia.org/w/index.php?oldid=123456"
          none none 123456 ⟨"<p>body</p>", [], some "T"⟩).resolved.rev_id = 123456) :=
  ⟨by decide, by decide,
    c1_pinned_url "https://en.wikipedia.org/w/index.php?oldid=123456" 123456
      (fun _ _ => Except.error "resolver down")
      (fun _ _ => Except.ok ⟨some "U", some 7, some "2020", some "u"⟩)
      (fun _ => Except.ok ⟨"<p>body</p>", [], some "T"⟩)
      (fun _ => Except.ok ⟨"<p>body</p>", [], some "T"⟩)
      (fun k => if k = 123456 then Except.ok ⟨"<p>body</p>", [], some "T"⟩
                else Except.error "other")
      none ⟨"<p>body</p>", [], some "T"⟩
      (by decide) (by decide) rfl rfl⟩

/-- Claim C6: for every URL that contains both a parseable oldid query
parameter and a title (a /wiki/ path segment or a title query
parameter), the identifier normalizer returns the pinned revision id
with title None: the oldid parameter takes precedence. -/
theorem c6_oldid_precedence (q : String) (n : Int)
    (h1 : isHttpUrl q = true) (h2 : urlOldid q = some n)
    (h3 : (splitAtSub wikiSeg (pyUrlparse q).path).isSome = true ∨
          qsValues "title".data (pyUrlparse q).query ≠ []) :
    extract_title_or_oldid q = (none, some n) :=
  extract_of_oldid q n h1 h2

theorem c6_oldid_precedence_witness :
    isHttpUrl "https://en.wikipedia.org/wiki/Foo?oldid=42" = true ∧
    urlOldid "https://en.wikipedia.org/wiki/Foo?oldid=42" = some 42 ∧
    (splitAtSub wikiSeg (pyUrlparse "https://en.wikipedia.org/wiki/Foo?oldid=42").path).isSome
      = true ∧
    extract_title_or_oldid "https://en.wikipedia.org/wiki/Foo?oldid=42" =
      (none, some 42) :=
  ⟨by decide, by decide, by decide,
    c6_oldid_precedence "https://en.wikipedia.org/wiki/Foo?oldid=42" 42
      (by decide) (by decide) (Or.inl (by decide))⟩

/-- Modelled from the spec: the transform the claim describes for the
wiki path segment, URL-decoding first and then replacing underscores
with spaces.  Compared against the code's transform, which is the
opposite order. -/
def specWikiTitle (raw : List Char) : String :=
  String.mk (underscoresToSpaces (unquoteChars raw))

/-- Claim C7 counterexample: for the URL whose wiki segment is A%5FB (a
percent-encoded underscore), the code produces the title A_B — it
replaces underscores before URL-decoding — while the claimed
decode-then-replace transform would produce A B. -/
theorem c7_counterexample :
    (extract_title_or_oldid "https://en.wikipedia.org/wiki/A%5FB").1 = some "A_B" ∧
    specWikiTitle "A%5FB".data = "A B" ∧
    (extract_title_or_oldid "https://en.wikipedia.org/wiki/A%5FB").1 ≠
      some (specWikiTitle "A%5FB".data) :=
  ⟨by decide, by decide, by decide⟩

/-- Claim C7 amended: for every URL whose path contains a /wiki/ segment and
whose query string carries no parseable oldid parameter, the normalizer
returns as title the segment after the first /wiki/ transformed by
replacing underscores with spaces and then URL-decoding, so a
percent-encoded underscore survives as an underscore. -/
theorem c7_amended (q : String) (pre raw : List Char)
    (h1 : isHttpUrl q = true) (h2 : urlOldid q = none)
    (h3 : splitAtSub wikiSeg (pyUrlparse q).path = some (pre, raw)) :
    (extract_title_or_oldid q).1 =
      some (String.mk (unquoteChars (underscoresToSpaces raw))) := by
  unfold extract_title_or_oldid urlTitleFallback
  simp [h1, h2, h3]

theorem c7_amended_witness :
    isHttpUrl "https://en.wikipedia.org/wiki/A%5FB_C" = true ∧
    urlOldid "https://en.wikipedia.org/wiki/A%5FB_C" = none ∧
    splitAtSub wikiSeg (pyUrlparse "https://en.wikipedia.org/wiki/A%5FB_C").path =
      some ([], "A%5FB_C".data) ∧
    (extract_title_or_oldid "https://en.wikipedia.org/wiki/A%5FB_C").1 =
      some (String.mk (unquoteChars (underscoresToSpaces "A%5FB_C".data))) :=
  ⟨by decide, by decide, by decide,
    c7_amended "https://en.wikipedia.org/wiki/A%5FB_C" [] "A%5FB_C".data
      (by decide) (by decide) (by decide)⟩

/-- Claim C10: for every URL whose oldid query parameter is present but not
parseable as an integer, the normalizer signals no failure: it behaves
exactly as the title fallback over the /wiki/ segment and the title
parameter, and the returned pair carries no pinned revision id, so the
request proceeds through temporal resolution. -/
theorem c10_malformed_oldid (q : String) (v : List Char)
    (h1 : isHttpUrl q = true)
    (h2 : (qsValues "oldid".data (pyUrlparse q).query).head? = some v)
    (h3 : pyIntParse v = none) :
    extract_title_or_oldid q = urlTitleFallback q ∧
    (extract_title_or_oldid q).2 = none := by
  have ho : urlOldid q = none := by
    unfold urlOldid
    rw [h2]
    exact h3
  have h4 : extract_title_or_oldid q = urlTitleFallback q := by
    unfold extract_title_or_oldid
    simp [h1, ho]
  exact ⟨h4, by rw [h4]; exact urlTitleFallback_snd q⟩

theorem c10_malformed_oldid_witness :
    isHttpUrl "https://en.wikipedia.org/wiki/Foo?oldid=abc" = true ∧
    (qsValues "oldid".data
        (pyUrlparse "https://en.wikipedia.org/wiki/Foo?oldid=abc").query).head? =
      some "abc".data ∧
    pyIntParse "abc".data = none ∧
    (extract_title_or_oldid "https://en.wikipedia.org/wiki/Foo?oldid=abc" =
        urlTitleFallback "https://en.wikipedia.org/wiki/Foo?oldid=abc" ∧
      (extract_title_or_oldid "https://en.wikipedia.org/wiki/Foo?oldid=abc").2 = none) :=
  ⟨by decide, by decide, by decide,
    c10_malformed_oldid "https://en.wikipedia.org/wiki/Foo?oldid=abc" "abc".data
      (by decide) (by decide) (by decide)⟩

/-- Claim C5: when the extraction yields a usable title and no pinned revision
id, and t_query is absent or empty, the tool returns output null with
the missing-timestamp error — a constant result independent of both
oracles, so no revision resolution and no content fetch happen and there
is no silent latest-revision fallback. -/
theorem c5_missing_timestamp (q s : String) (t : Option String)
    (r : String → String → Except String OldidMeta)
    (f : Int → Except String HtmlPkg)
    (hE : extract_title_or_oldid q = (some s, none)) (hs : s ≠ "")
    (ht : t = none ∨ t = some "") :
    forward r f q t =
      { output := none,
        error := some "t_query is required when no oldid is provided." } := by
  have htr : pyTruthy (some s) = true := by simp [pyTruthy, hs]
  have htf : pyTruthy t = false := by rcases ht with rfl | rfl <;> rfl
  unfold forward forwardExc
  rw [hE]
  simp [htr, htf]

theorem c5_missing_timestamp_witness :
    extract_title_or_oldid "Climate change" = (some "Climate change", none) ∧
    "Climate change" ≠ "" ∧
    forward (fun _ _ => Except.ok ⟨some "U", some 7, some "2020", some "u"⟩)
        (fun _ => Except.ok ⟨"<p>body</p>", [], some "T"⟩) "Climate change" none =
      { output := none,
        error := some "t_query is required when no oldid is provided." } :=
  ⟨by decide, by decide,
    c5_missing_timestamp "Climate change" "Climate change" none
      (fun _ _ => Except.ok ⟨some "U", some 7, some "2020", some "u"⟩)
      (fun _ => Except.ok ⟨"<p>body</p>", [], some "T"⟩)
      (by decide) (by decide) (Or.inl rfl)⟩

/-- Claim C8: forward is a total function into ToolResult — no exception of
the pipeline escapes it — and every result is either output null with a
non-null error message or a success payload with a null error. -/
theorem c8_no_throw (r : String → String → Except String OldidMeta)
    (f : Int → Except String HtmlPkg) (q : String) (t : Option String) :
    (∃ m, forward r f q t = { output := none, error := some m }) ∨
    (∃ a, forward r f q t = { output := some a, error := none }) := by
  unfold forward forwardExc
  rcases hE : extract_title_or_oldid q with ⟨title, _ | n⟩
  · by_cases h1 : pyTruthy title = false
    · exact Or.inl
        ⟨"Could not parse a title or oldid from query_or_url.", by simp [h1]⟩
    · by_cases h2 : pyTruthy t = false
      · exact Or.inl
          ⟨"t_query is required when no oldid is provided.", by simp [h1, h2]⟩
      · rcases hr : r (title.getD "") (t.getD "") with e | meta
        · exact Or.inl
            ⟨"wikipedia_asof_tool error: " ++ e, by simp [h1, h2, hr]⟩
        · rcases hm : meta.rev_id with _ | n2
          · exact Or.inl
              ⟨"wikipedia_asof_tool error: " ++ "KeyError: rev_id",
                by simp [h1, h2, hr, hm]⟩
          · rcases hf : f n2 with e | pkg
            · exact Or.inl
                ⟨"wikipedia_asof_tool error: " ++ e, by simp [h1, h2, hr, hm, hf]⟩
            · exact Or.inr ⟨mkResolved q t meta n2 pkg, by simp [h1, h2, hr, hm, hf]⟩
  · rcases hf : f n with e | pkg
    · exact Or.inl ⟨"wikipedia_asof_tool error: " ++ e, by simp [hf]⟩
    · exact Or.inr ⟨mkPinned q t none n pkg, by simp [hf]⟩

/-! ## Claims about the enforcer endpoint -/

/-- Does the body have no pages, or a first page without a revisions
key?  This is the exact condition the endpoint answers 404 on; a
revisions key present with an empty list is not covered. -/
def firstPageNoRevKey (b : WikiBody) : Bool :=
  match wikiPages b with
  | [] => true
  | p :: _ =>
    match p.revisions with
    | none => true
    | some _ => false

/-- Claim C4 amended: when the upstream call answers with a status and a body,
the endpoint fails with HTTPException 404 exactly when the status passes
the 403 check and raise_for_status (no 4xx or 5xx) and the body has no
pages or its first page has no revisions key; it fails with
HTTPException 403 exactly when the upstream status is 403; any other
4xx or 5xx propagates as the distinct raise_for_status error.  A
revisions key present with an empty list instead raises an IndexError
(see the counterexample), which is why the claim's plain reading of
"carries no revisions" had to be narrowed to "has no revisions key". -/
theorem c4_amended (upstream : WikiReq → WikiResp) (title t_query : String)
    (status : Nat) (body : WikiBody)
    (h : upstream (mkWikiReq title t_query) = WikiResp.response status body) :
    (failsWithStatus 404 (oldid_before upstream title t_query) = true ↔
      (¬ status = 403 ∧ ¬ (400 ≤ status ∧ status < 600) ∧
        firstPageNoRevKey body = true)) ∧
    (failsWithStatus 403 (oldid_before upstream title t_query) = true ↔
      status = 403) ∧
    (¬ status = 403 → 400 ≤ status ∧ status < 600 →
      oldid_before upstream title t_query =
        Except.error (EnforcerError.httpStatusError status)) := by
  unfold oldid_before firstPageNoRevKey
  rw [h]
  by_cases h403 : status = 403
  · simp [h403, failsWithStatus]
  · by_cases h45 : 400 ≤ status ∧ status < 600
    · simp [h403, h45, failsWithStatus]
    · rcases hp : wikiPages body with _ | ⟨page, rest⟩
      · simp [h403, h45, hp, failsWithStatus]
      · rcases hrv : page.revisions with _ | l
        · simp [h403, h45, hp, hrv, failsWithStatus]
        · rcases l with _ | ⟨rev, l2⟩
          · simp [h403, h45, hp, hrv, failsWithStatus]
          · simp [h403, h45, hp, hrv, failsWithStatus]

/-- An upstream body whose single page has a revisions key holding an
empty list. -/
def c4BodyEmptyRevs : WikiBody :=
  { query := some ({ pages := some [{ title := some "X", revisions := some [] }] }) }

/-- Claim C4 counterexample: with an upstream 200 response whose first page
carries no revisions — a revisions key present with an empty list — the
endpoint does not fail with 404: subscripting the empty list raises an
IndexError, a different failure.  This falsifies the claimed "404 if and
only if no pages or no revisions on the first page". -/
theorem c4_counterexample :
    oldid_before (fun _ => WikiResp.response 200 c4BodyEmptyRevs) "X" "2020-01-01" =
      Except.error EnforcerError.indexError ∧
    failsWithStatus 404
      (oldid_before (fun _ => WikiResp.response 200 c4BodyEmptyRevs) "X" "2020-01-01") =
      false ∧
    wikiPages c4BodyEmptyRevs =
      [{ title := some "X", revisions := some [] }] :=
  ⟨rfl, rfl, rfl⟩

/-- An upstream body whose single page has one revision. -/
def c4BodyOk : WikiBody :=
  ⟨some ⟨some [⟨some "Climate change",
    some [⟨940000000, "2019-12-31T00:00:00Z"⟩]⟩]⟩⟩

theorem c4_amended_witness :
    ((fun _ : WikiReq => WikiResp.response 200 c4BodyOk)
        (mkWikiReq "Climate change" "2020-01-01") =
      WikiResp.response 200 c4BodyOk) ∧
    ((failsWithStatus 404
        (oldid_before (fun _ => WikiResp.response 200 c4BodyOk)
          "Climate change" "2020-01-01") = true ↔
      (¬ (200 : Nat) = 403 ∧ ¬ ((400 : Nat) ≤ 200 ∧ (200 : Nat) < 600) ∧
        firstPageNoRevKey c4BodyOk = true)) ∧
    (failsWithStatus 403
        (oldid_before (fun _ => WikiResp.response 200 c4BodyOk)
          "Climate change" "2020-01-01") = true ↔ (200 : Nat) = 403) ∧
    (¬ (200 : Nat) = 403 → (400 : Nat) ≤ 200 ∧ (200 : Nat) < 600 →
      oldid_before (fun _ => WikiResp.response 200 c4BodyOk)
          "Climate change" "2020-01-01" =
        Except.error (EnforcerError.httpStatusError 200))) :=
  ⟨rfl,
    c4_amended (fun _ => WikiResp.response 200 c4BodyOk)
      "Climate change" "2020-01-01" 200 c4BodyOk rfl⟩

end DeepResearchAgent
